import Mathlib

/-!
Verification of the transaction-analysis engine of the financial-dashboard
repository (src/data_processor.py, src/categorizer.py, src/recurring_detector.py,
src/ai_insights.py), as a shallow embedding in Lean.

Modelling conventions:
* Monetary amounts and all derived ratios are rationals (the source uses
  IEEE floats; every constant appearing in the source - 0.05, 4.33, 30.44,
  100 - is exactly representable, and no claim below depends on float
  rounding).  A division the source performs WITHOUT a zero-denominator
  guard is embedded as `pyDiv`, which is `none` on a zero denominator,
  so that the embedding cannot silently invent a value for it.
* Dates are day numbers (`Int`); `pd.Timestamp` subtraction `.days` is
  integer subtraction of day numbers.
* Text is processed at the character-list level with structural
  re-implementations of the Python string operations used by the source
  (strip, split, startswith, replace, upper/lower, substring test), so
  that concrete runs reduce inside the kernel.
* `pandas.sort_values` is embedded as an insertion sort on the same key.
  No theorem below depends on the order of tie groups.
-/

/-! ### Python string primitives, at the character level -/

/-- Python `str.strip()` whitespace set (space, tab, newline, CR, VT, FF). -/
def pyIsSpace (c : Char) : Bool :=
  c = ' ' || c = '\t' || c = '\n' || c = '\r' || c = '\x0b' || c = '\x0c'

/-- Python `str.lstrip()` on a character list. -/
def lstripBy (p : Char → Bool) (l : List Char) : List Char := l.dropWhile p

/-- Python `str.strip()` on a character list. -/
def pyStrip (l : List Char) : List Char :=
  ((l.dropWhile pyIsSpace).reverse.dropWhile pyIsSpace).reverse

/-- ASCII uppercase of one character (the headers the parser matches are ASCII). -/
def upperCh (c : Char) : Char :=
  if 97 ≤ c.toNat ∧ c.toNat ≤ 122 then Char.ofNat (c.toNat - 32) else c

/-- ASCII lowercase of one character (the categoriser keywords are compared
case-insensitively; all keyword letters in the source are ASCII). -/
def lowerCh (c : Char) : Char :=
  if 65 ≤ c.toNat ∧ c.toNat ≤ 90 then Char.ofNat (c.toNat + 32) else c

/-- Does `needle` occur at the head of `haystack`?  (Python `str.startswith`.) -/
def leadMatch : List Char → List Char → Bool
  | [], _ => true
  | _ :: _, [] => false
  | c :: cs, d :: ds => c = d && leadMatch cs ds

/-- Does `needle` occur anywhere inside `haystack`?  (Python `in` on strings.) -/
def hasSub (needle : List Char) : List Char → Bool
  | [] => leadMatch needle []
  | d :: ds => leadMatch needle (d :: ds) || hasSub needle ds

/-- Python `str.split(sep)` for a one-character separator. -/
def splitOnChar (sep : Char) : List Char → List (List Char)
  | [] => [[]]
  | c :: cs =>
    let r := splitOnChar sep cs
    if c = sep then [] :: r
    else
      match r with
      | [] => [[c]]
      | h :: t => (c :: h) :: t

/-- Helper for `replaceAll`: after a match, `skip` more characters belong to the
matched occurrence and are dropped. -/
def replaceGo (pat rep : List Char) : List Char → Nat → List Char
  | [], _ => []
  | _ :: cs, skip + 1 => replaceGo pat rep cs skip
  | c :: cs, 0 =>
    if leadMatch pat (c :: cs) then rep ++ replaceGo pat rep cs (pat.length - 1)
    else c :: replaceGo pat rep cs 0

/-- Python `str.replace(pat, rep)` (all occurrences, left to right).  Every
pattern the source passes is non-empty, which this version assumes. -/
def replaceAll (pat rep l : List Char) : List Char := replaceGo pat rep l 0

/-! ### Rational helpers shared by the numeric code -/

/-- `pandas`/`numpy` column mean: sum divided by length.  Every call site in
the source applies it to a non-empty column. -/
def qmean (l : List ℚ) : ℚ := l.sum / l.length

/-- Population variance (`numpy.std` squared, `ddof = 0`). -/
def popVar (l : List ℚ) : ℚ := qmean (l.map (fun x => (x - qmean l) ^ 2))

/-- Python `int()` on a rational: truncation toward zero. -/
def pyInt (q : ℚ) : Int := if 0 ≤ q then ⌊q⌋ else ⌈q⌉

/-- A division the source performs with no zero-denominator guard: there is
no value to give it when the denominator is zero. -/
def pyDiv (a b : ℚ) : Option ℚ := if b = 0 then none else some (a / b)

/-- `numpy` round-half-to-even of a rational to an integer. -/
def roundHalfEven (x : ℚ) : Int :=
  let f := ⌊x⌋
  let r := x - f
  if r < 1 / 2 then f
  else if 1 / 2 < r then f + 1
  else if Even f then f else f + 1

/-- `DataFrame.round(2)`: round-half-to-even at two decimals. -/
def npRound2 (x : ℚ) : ℚ := (roundHalfEven (x * 100) : ℚ) / 100

/-! ### `pandas.sort_values`, `Series.unique`, min/max of a column -/

/-- Insert into a sorted list (kept `le`-sorted). -/
def insertLe {α : Type} (le : α → α → Bool) (x : α) : List α → List α
  | [] => [x]
  | y :: ys => if le x y then x :: y :: ys else y :: insertLe le x ys

/-- Insertion sort; embeds `DataFrame.sort_values` on the key inside `le`. -/
def isort {α : Type} (le : α → α → Bool) : List α → List α
  | [] => []
  | x :: xs => insertLe le x (isort le xs)

/-- `Series.unique()`: deduplicate keeping the first occurrence of each value. -/
def uniq {α : Type} [DecidableEq α] (l : List α) : List α :=
  l.foldl (fun acc x => if x ∈ acc then acc else acc ++ [x]) []

/-- `Series.min()` of a non-empty integer column (0 is never reached). -/
def listMinD : List Int → Int
  | [] => 0
  | x :: xs => xs.foldl min x

/-- `Series.max()` of a non-empty integer column (0 is never reached). -/
def listMaxD : List Int → Int
  | [] => 0
  | x :: xs => xs.foldl max x

/-- Consecutive differences of a column of day numbers, in order. -/
def consecutiveGaps : List Int → List Int
  | x :: y :: rest => (y - x) :: consecutiveGaps (y :: rest)
  | _ => []

theorem insertLe_perm {α : Type} (le : α → α → Bool) (x : α) (l : List α) :
    (insertLe le x l).Perm (x :: l) := by
  induction l with
  | nil => simp [insertLe]
  | cons y ys ih =>
    by_cases h : le x y
    · simp [insertLe, h]
    · simp only [insertLe, h, if_neg, Bool.false_eq_true, if_false]
      exact (List.Perm.cons y ih).trans (List.Perm.swap x y ys)

theorem isort_perm {α : Type} (le : α → α → Bool) (l : List α) :
    (isort le l).Perm l := by
  induction l with
  | nil => simp [isort]
  | cons x xs ih =>
    exact (insertLe_perm le x (isort le xs)).trans (List.Perm.cons x ih)

theorem mem_isort {α : Type} (le : α → α → Bool) (l : List α) (a : α) :
    a ∈ isort le l ↔ a ∈ l :=
  (isort_perm le l).mem_iff

theorem pairwise_insertLe {α : Type} (le : α → α → Bool)
    (htot : ∀ a b, le a b = true ∨ le b a = true)
    (htrans : ∀ a b c, le a b = true → le b c = true → le a c = true)
    (x : α) (l : List α)
    (h : l.Pairwise (fun a b => le a b = true)) :
    (insertLe le x l).Pairwise (fun a b => le a b = true) := by
  induction l with
  | nil => simp [insertLe]
  | cons y ys ih =>
    rcases List.pairwise_cons.mp h with ⟨hy, hys⟩
    by_cases hxy : le x y
    · simp only [insertLe, hxy, if_true]
      refine List.pairwise_cons.mpr ⟨?_, h⟩
      intro b hb
      rcases List.mem_cons.mp hb with rfl | hb
      · exact hxy
      · exact htrans x y b hxy (hy b hb)
    · simp only [insertLe, hxy, Bool.false_eq_true, if_false]
      refine List.pairwise_cons.mpr ⟨?_, ih hys⟩
      intro b hb
      rcases List.mem_cons.mp ((insertLe_perm le x ys).mem_iff.mp hb) with rfl | hb
      · exact (htot _ _).resolve_left hxy
      · exact hy b hb

theorem pairwise_isort {α : Type} (le : α → α → Bool)
    (htot : ∀ a b, le a b = true ∨ le b a = true)
    (htrans : ∀ a b c, le a b = true → le b c = true → le a c = true)
    (l : List α) :
    (isort le l).Pairwise (fun a b => le a b = true) := by
  induction l with
  | nil => simp [isort]
  | cons x xs ih => exact pairwise_insertLe le htot htrans x (isort le xs) ih

theorem isort_eq_self {α : Type} (le : α → α → Bool) (l : List α)
    (h : l.Pairwise (fun a b => le a b = true)) : isort le l = l := by
  induction l with
  | nil => rfl
  | cons x xs ih =>
    rcases List.pairwise_cons.mp h with ⟨hx, hxs⟩
    rw [isort, ih hxs]
    cases xs with
    | nil => rfl
    | cons y ys => simp [insertLe, hx y (by simp)]

/-! ### Data model

`Txn` is a row of the canonical transaction table (data_processor.py builds
it; every downstream component consumes it).  The derived columns `type` and
`abs_amount` are pure functions of `amount` (data_processor.py lines
101-102); they are embedded as the functions `ttypeOf` / `absAmountOf`.
The calendar projections `year`, `month`, `month_name`, `day_of_week` are
also derived from `date` at ingestion but are touched by none of the claims
and are omitted.  `category` is the cell of the category column;
`none` models a table on which the categoriser has not run (column absent /
missing value). -/

structure Txn where
  date : Int
  description : String
  amount : ℚ
  category : Option String
deriving DecidableEq

/-- data_processor.py line 101: `'Income' if x > 0 else 'Expense'`. -/
def ttypeOf (t : Txn) : String := if 0 < t.amount then "Income" else "Expense"

/-- data_processor.py line 102: `df['amount'].abs()`. -/
def absAmountOf (t : Txn) : ℚ := |t.amount|

/-! ### data_processor.process_transactions (lines 75-110)

A raw row holds the three required cells after pandas coercion:
`none` is the missing marker (`NaT` from `to_datetime(errors='coerce')`,
`NaN` from `to_numeric(errors='coerce')`, or a missing description cell).
An empty-string description is `some ""` - present, not missing. -/

structure RawRow where
  date : Option Int
  description : Option String
  amount : Option ℚ
deriving DecidableEq

/-- A processed row: the raw cells plus the derived columns added by
`process_transactions` before the final `dropna`. -/
structure ProcRow where
  date : Option Int
  description : Option String
  amount : Option ℚ
  ttype : String
  abs_amount : Option ℚ
deriving DecidableEq

/-- Column derivation of `process_transactions` (lines 95-102) on one row.
A missing amount compares `NaN > 0` false, hence type `Expense`; `abs` of a
missing amount stays missing. -/
def procOf (r : RawRow) : ProcRow :=
  { date := r.date, description := r.description, amount := r.amount,
    ttype := match r.amount with
      | some a => if 0 < a then "Income" else "Expense"
      | none => "Expense",
    abs_amount := r.amount.map (fun a => |a|) }

/-- Sort key of line 105: descending by date, missing dates last
(`sort_values('date', ascending=False)`, default `na_position='last'`). -/
def dateDescLe (r s : ProcRow) : Bool :=
  match r.date, s.date with
  | some x, some y => decide (y ≤ x)
  | some _, none => true
  | none, none => true
  | none, some _ => false

/-- data_processor.process_transactions, lines 86-110: derive columns, sort
descending by date, then `dropna(subset=['date', 'amount', 'description'])`. -/
def process_transactions (df : List RawRow) : List ProcRow :=
  (isort dateDescLe (df.map procOf)).filter
    (fun r => r.date.isSome && r.amount.isSome && r.description.isSome)

/-! ### data_processor.calculate_summary_stats (lines 131-152) -/

structure SummaryStats where
  total_income : ℚ
  total_expenses : ℚ
  net_savings : ℚ
  avg_transaction : ℚ
  num_transactions : Nat
  savings_rate : ℚ

/-- Line 138: `df[df['amount'] > 0]['amount'].sum()`. -/
def total_income_of (df : List Txn) : ℚ :=
  ((df.filter (fun t => decide (0 < t.amount))).map (·.amount)).sum

/-- Line 139: `df[df['amount'] < 0]['amount'].abs().sum()`. -/
def total_expenses_of (df : List Txn) : ℚ :=
  ((df.filter (fun t => decide (t.amount < 0))).map absAmountOf).sum

/-- data_processor.calculate_summary_stats.  The savings-rate ratio is
guarded: `(net_savings / total_income * 100) if total_income > 0 else 0`. -/
def calculate_summary_stats (df : List Txn) : SummaryStats :=
  { total_income := total_income_of df
    total_expenses := total_expenses_of df
    net_savings := total_income_of df - total_expenses_of df
    avg_transaction := qmean (df.map absAmountOf)
    num_transactions := df.length
    savings_rate := if 0 < total_income_of df then
        (total_income_of df - total_expenses_of df) / total_income_of df * 100
      else 0 }

/-! ### categorizer.py: rule-based and AI-assisted categorisation -/

/-- categorizer.DEFAULT_CATEGORIES (lines 14-25), in dict insertion order. -/
def DEFAULT_CATEGORIES : List (String × List String) :=
  [("Food & Groceries", ["ICA", "Coop", "Hemköp", "Willys", "Supermarket", "Groceries"]),
   ("Transportation", ["SL", "Shell", "Circle K", "Gas", "Fuel", "Parking"]),
   ("Entertainment", ["Netflix", "Spotify", "HBO", "Steam", "Cinema"]),
   ("Shopping", ["H&M", "Elgiganten", "IKEA", "Amazon", "Clothing"]),
   ("Housing", ["Rent", "Landlord", "Electricity", "Vattenfall", "Water"]),
   ("Utilities", ["Telia", "Telenor", "Internet", "Phone", "Mobile"]),
   ("Dining Out", ["Restaurant", "Max", "McDonalds", "Cafe", "Bar"]),
   ("Healthcare", ["Apoteket", "Pharmacy", "Doctor", "Hospital"]),
   ("Income", ["Salary", "Deposit", "Transfer In", "Payment Received"]),
   ("Other", [])]

/-- The nested loop of `categorize_transaction_simple`: first category one of
whose keywords occurs (case-insensitively) in the description wins. -/
def firstMatching (dlow : List Char) : List (String × List String) → Option String
  | [] => none
  | (cat, kws) :: rest =>
    if kws.any (fun kw => hasSub (kw.data.map lowerCh) dlow) then some cat
    else firstMatching dlow rest

/-- categorizer.categorize_transaction_simple (lines 28-45). -/
def categorize_transaction_simple (description : String) : String :=
  (firstMatching (description.data.map lowerCh) DEFAULT_CATEGORIES).getD "Other"

/-- Rule-based category column: `df['description'].apply(categorize_transaction_simple)`. -/
def rule_based (df : List Txn) : List String :=
  df.map (fun t => categorize_transaction_simple t.description)

/-- categorizer.categorize_transactions_bulk (lines 48-65), rule-based mode.
The source executes `df['category'] = df['description'].apply(...)` - an
in-place column assignment on the frame the caller passed - and then
`return df`, the same frame.  The embedding makes the aliasing explicit by
returning the pair (caller's frame after the call, returned frame); the
in-place assignment makes the two components the same updated table. -/
def categorize_transactions_bulk (df : List Txn) : List Txn × List Txn :=
  let updated := df.map
    (fun t => { t with category := some (categorize_transaction_simple t.description) })
  (updated, updated)

/-- `response.content[0].text.strip()` split on commas, each label stripped
(categorizer lines 114-115). -/
def labelsOfResponse (text : String) : List String :=
  (splitOnChar ',' (pyStrip text.data)).map (fun cs => String.mk (pyStrip cs))

/-- categorizer.categorize_with_ai (lines 68-127).  The text-completion
service is the opaque collaborator: its outcome is the `service` argument,
`Except.error` being any exception the `try` block catches (transport
failure, quota, malformed response object).  On success the label list is
padded with rule-based categories when it is shorter than the table
(lines 117-120) and truncated to the table length (line 122); on any error
the whole batch is rule-based (lines 124-127). -/
def categorize_with_ai (df : List Txn) (service : Except String String) : List String :=
  match service with
  | .error _ => rule_based df
  | .ok text =>
    let categories := labelsOfResponse text
    let categories :=
      if categories.length < df.length then
        categories ++ (df.drop categories.length).map
          (fun t => categorize_transaction_simple t.description)
      else categories
    categories.take df.length

/-! ### categorizer.get_category_summary (lines 138-152) -/

structure CatSummary where
  category : String
  Total : ℚ
  Average : ℚ
  Count : Nat
deriving DecidableEq

/-- Ordering of `groupby` keys (pandas sorts group keys ascending). -/
def charListLe : List Char → List Char → Bool
  | [], _ => true
  | _ :: _, [] => false
  | c :: cs, d :: ds => if c = d then charListLe cs ds else decide (c.toNat < d.toNat)

def strLeB (a b : String) : Bool := charListLe a.data b.data

/-- categorizer.get_category_summary: group the given table by category
(groupby drops rows whose category cell is missing and sorts the keys),
aggregate sum/mean/count of `abs_amount`, round to two decimals, sort
descending by the sum.  Note the source applies NO filter on the
transaction type: it aggregates every row of the frame it receives. -/
def get_category_summary (df : List Txn) : List CatSummary :=
  let keys := isort strLeB (uniq (df.filterMap (·.category)))
  let rows := keys.map (fun k =>
    let g := df.filter (fun t => decide (t.category = some k))
    let amts := g.map absAmountOf
    { category := k, Total := npRound2 amts.sum, Average := npRound2 (qmean amts),
      Count := g.length })
  isort (fun r s => decide (s.Total ≤ r.Total)) rows

/-! ### categorizer.get_budget_status (lines 154-189) -/

structure BudgetRow where
  Category : String
  Budget : ℚ
  Spent : ℚ
  Remaining : ℚ
  PercentUsed : ℚ
  Status : String
deriving DecidableEq

/-- `actual.get(category, 0)`: the summed `abs_amount` of the expense-type
rows carrying the category, 0 when the category never occurs (lines 166-172). -/
def actual_spending (df : List Txn) (category : String) : ℚ :=
  ((df.filter (fun t => decide (ttypeOf t = "Expense") &&
      decide (t.category = some category))).map absAmountOf).sum

/-- Line 174: `(spent / budget * 100) if budget > 0 else 0`. -/
def percent_used (spent budget : ℚ) : ℚ :=
  if 0 < budget then spent / budget * 100 else 0

/-- Line 175: `'Over Budget' if spent > budget else 'Within Budget'`. -/
def budget_status_of (spent budget : ℚ) : String :=
  if budget < spent then "Over Budget" else "Within Budget"

/-- One row of the comparison frame (lines 171-184). -/
def budget_row (df : List Txn) (category : String) (budget : ℚ) : BudgetRow :=
  let spent := actual_spending df category
  { Category := category, Budget := budget, Spent := spent,
    Remaining := budget - spent, PercentUsed := percent_used spent budget,
    Status := budget_status_of spent budget }

/-- categorizer.get_budget_status: one row per configured budget entry
(iteration over the dict's items), sorted descending by percent used. -/
def get_budget_status (df : List Txn) (budgets : List (String × ℚ)) : List BudgetRow :=
  isort (fun r s => decide (s.PercentUsed ≤ r.PercentUsed))
    (budgets.map (fun p => budget_row df p.1 p.2))

/-! ### recurring_detector.detect_recurring_payments (lines 36-109) -/

structure RecRow where
  description : String
  amount : ℚ
  frequency : String
  occurrences : Nat
  first_date : Int
  last_date : Int
  category : String
  avg_interval_days : ℚ
deriving DecidableEq

/-- The coefficient-of-variation test of lines 61-65, squared.  The source
computes `amounts.std() / avg_amount if avg_amount > 0 else 0` (a real
square root) and skips the group when it exceeds 0.05; over ℚ the embedding
carries the square of that value, and the threshold becomes
`(0.05)^2 = 1/400` - an equivalent comparison, both sides being
non-negative. -/
def variance_sq (amounts : List ℚ) : ℚ :=
  let avg := qmean amounts
  if 0 < avg then popVar amounts / avg ^ 2 else 0

/-- Frequency classification of lines 81-90, in source order (Monthly,
Quarterly, Yearly, Weekly buckets are checked first; otherwise the
free-form label uses Python `int()`, i.e. truncation). -/
def determine_frequency (avg_interval : ℚ) : String :=
  if 25 ≤ avg_interval ∧ avg_interval ≤ 35 then "Monthly"
  else if 85 ≤ avg_interval ∧ avg_interval ≤ 95 then "Quarterly"
  else if 355 ≤ avg_interval ∧ avg_interval ≤ 375 then "Yearly"
  else if 6 ≤ avg_interval ∧ avg_interval ≤ 8 then "Weekly"
  else "Every " ++ toString (pyInt avg_interval) ++ " days"

/-- Sort key of line 55: ascending by date. -/
def dateLe (s t : Txn) : Bool := decide (s.date ≤ t.date)

/-- One iteration of the per-description loop (lines 54-101): `none` when the
group is skipped by one of the three guards, otherwise the emitted record. -/
def detectRow (min_occurrences : Nat) (expense_df : List Txn) (description : String) :
    Option RecRow :=
  let dts := isort dateLe (expense_df.filter (fun t => decide (t.description = description)))
  if dts.length < min_occurrences then none
  else
    let amounts := dts.map absAmountOf
    let avg_amount := qmean amounts
    if 1 / 400 < variance_sq amounts then none
    else
      let dates := dts.map (·.date)
      let intervals := consecutiveGaps dates
      if intervals = [] then none
      else
        let avg_interval := (intervals.sum : ℚ) / (intervals.length : ℚ)
        some { description := description
               amount := avg_amount
               frequency := determine_frequency avg_interval
               occurrences := dts.length
               first_date := listMinD dates
               last_date := listMaxD dates
               category := (match dts with
                 | [] => "Unknown"
                 | t :: _ => t.category.getD "Unknown")
               avg_interval_days := avg_interval }

/-- recurring_detector.detect_recurring_payments: keep expense-type rows,
loop over the unique descriptions in first-appearance order, and sort the
qualifying records descending by amount (lines 47-109).
The category of a record is the first occurrence's category cell,
`'Unknown'` standing for an absent category column (line 99). -/
def detect_recurring_payments (df : List Txn) (min_occurrences : Nat) : List RecRow :=
  let expense_df := df.filter (fun t => decide (ttypeOf t = "Expense"))
  isort (fun r s => decide (s.amount ≤ r.amount))
    ((uniq (expense_df.map (·.description))).filterMap (detectRow min_occurrences expense_df))

/-! ### recurring_detector.calculate_recurring_totals (lines 112-148) -/

structure RecTotals where
  monthly_total : ℚ
  yearly_total : ℚ
  count : Nat
deriving DecidableEq

/-- Monthly-equivalent cost of one recurring entry (lines 126-139).  The four
named frequencies use guarded constant divisors; the free-form branch
divides by `avg_interval_days` with NO zero guard, so a zero interval has no
value (`pyDiv`). -/
def monthlyCost (row : RecRow) : Option ℚ :=
  if row.frequency = "Monthly" then some row.amount
  else if row.frequency = "Quarterly" then some (row.amount / 3)
  else if row.frequency = "Yearly" then some (row.amount / 12)
  else if row.frequency = "Weekly" then some (row.amount * (433 / 100))
  else pyDiv (row.amount * (3044 / 100)) row.avg_interval_days

/-- The `monthly_costs` accumulation loop (lines 123-139): `none` as soon as
one entry hits the unguarded division by zero. -/
def collectCosts : List RecRow → Option (List ℚ)
  | [] => some []
  | r :: rs =>
    match monthlyCost r, collectCosts rs with
    | some c, some cs => some (c :: cs)
    | _, _ => none

/-- recurring_detector.calculate_recurring_totals: zero totals on an empty
frame, otherwise the summed monthly equivalents (`none` when an entry's
conversion has no value). -/
def calculate_recurring_totals (recurring_df : List RecRow) : Option RecTotals :=
  if recurring_df.isEmpty then some { monthly_total := 0, yearly_total := 0, count := 0 }
  else
    (collectCosts recurring_df).map
      (fun cs => { monthly_total := cs.sum, yearly_total := cs.sum * 12,
                   count := recurring_df.length })

/-! ### ai_insights.parse_insights_response (lines 155-204) -/

/-- One recommendation record; a field is `none` while its dict key is
unassigned.  Python's `if current_rec:` truthiness test is `recNonempty`. -/
structure RecItem where
  priority : Option String
  category : Option String
  action : Option String
  impact : Option String
deriving DecidableEq

def emptyRec : RecItem := ⟨none, none, none, none⟩

/-- Truthiness of the `current_rec` dict: at least one key assigned. -/
def recNonempty (r : RecItem) : Bool :=
  r.priority.isSome || r.category.isSome || r.action.isSome || r.impact.isSome

/-- Parser state: `current_section`, the two accumulators, and `current_rec`. -/
structure PState where
  sec : Option String
  insights : List String
  recs : List RecItem
  current : RecItem

/-- `line.replace(label, '').strip()` (lines 188-195). -/
def fieldVal (label : String) (line : List Char) : String :=
  String.mk (pyStrip (replaceAll label.data [] line))

/-- The loop body of `parse_insights_response` on one raw line
(lines 165-195), with the source's branch order: section headers first
(case-insensitive substring test on the stripped line), then the
insight-bullet branch, then the four recommendation field prefixes.
A `Priority:` line appends `current_rec` to the output first when it is
non-empty (truthy) and then starts a fresh record; the other three field
lines assign their key on `current_rec` whether or not a record was
started by a `Priority:` line. -/
def parseLine (st : PState) (rawLine : List Char) : PState :=
  let line := pyStrip rawLine
  if hasSub ("INSIGHTS:".data) (line.map upperCh) then { st with sec := some "insights" }
  else if hasSub ("RECOMMENDATIONS:".data) (line.map upperCh) then
    { st with sec := some "recommendations" }
  else if st.sec = some "insights" then
    if leadMatch ("-".data) line || leadMatch ("•".data) line then
      let insight := String.mk (pyStrip (lstripBy (fun c => c = '-' || c = '•') line))
      if insight ≠ "" then { st with insights := st.insights ++ [insight] } else st
    else st
  else if st.sec = some "recommendations" then
    if leadMatch ("Priority:".data) line then
      let flushed := if recNonempty st.current then st.recs ++ [st.current] else st.recs
      { st with recs := flushed,
                current := { emptyRec with priority := some (fieldVal "Priority:" line) } }
    else if leadMatch ("Category:".data) line then
      { st with current := { st.current with category := some (fieldVal "Category:" line) } }
    else if leadMatch ("Action:".data) line then
      { st with current := { st.current with action := some (fieldVal "Action:" line) } }
    else if leadMatch ("Impact:".data) line then
      { st with current := { st.current with impact := some (fieldVal "Impact:" line) } }
    else st
  else st

structure InsightBundle where
  insights : List String
  recommendations : List RecItem
deriving DecidableEq

/-- ai_insights.parse_insights_response: fold the loop body over the lines of
the response and flush a truthy trailing `current_rec` (lines 197-199). -/
def parse_insights_response (response_text : String) : InsightBundle :=
  let final := (splitOnChar '\n' response_text.data).foldl parseLine
    { sec := none, insights := [], recs := [], current := emptyRec }
  { insights := final.insights,
    recommendations :=
      final.recs ++ (if recNonempty final.current then [final.current] else []) }

/-! ### Concrete tables used by the claims -/

/-- Three same-day occurrences of one expense description: qualifies for
detection (count 3, zero amount variance) with every consecutive gap 0. -/
def sameDayTable : List Txn :=
  [⟨100, "Spotify Family", -99, some "Entertainment"⟩,
   ⟨100, "Spotify Family", -99, some "Entertainment"⟩,
   ⟨100, "Spotify Family", -99, some "Entertainment"⟩]

/-- The record `detect_recurring_payments` emits for `sameDayTable`. -/
def sameDayRec : RecRow :=
  { description := "Spotify Family", amount := 99, frequency := "Every 0 days",
    occurrences := 3, first_date := 100, last_date := 100, category := "Entertainment",
    avg_interval_days := 0 }

/-- Five occurrences with gaps 10, 11, 11, 11: mean interval 43/4 = 10.75,
inside no bucket. -/
def gymTable : List Txn :=
  [⟨0, "Gym Club", -100, some "Healthcare"⟩,
   ⟨10, "Gym Club", -100, some "Healthcare"⟩,
   ⟨21, "Gym Club", -100, some "Healthcare"⟩,
   ⟨32, "Gym Club", -100, some "Healthcare"⟩,
   ⟨43, "Gym Club", -100, some "Healthcare"⟩]

/-- The record `detect_recurring_payments` emits for `gymTable`. -/
def gymRec : RecRow :=
  { description := "Gym Club", amount := 100, frequency := "Every 10 days",
    occurrences := 5, first_date := 0, last_date := 43, category := "Healthcare",
    avg_interval_days := 43 / 4 }

theorem sameDay_expense_filter :
    sameDayTable.filter (fun t => decide (ttypeOf t = "Expense")) = sameDayTable := by
  norm_num [sameDayTable, ttypeOf, List.filter]

theorem sameDay_detectRow : detectRow 3 sameDayTable "Spotify Family" = some sameDayRec := by
  norm_num [detectRow, sameDayTable, sameDayRec, isort, insertLe, dateLe, absAmountOf, qmean,
    popVar, variance_sq, consecutiveGaps, determine_frequency, pyInt, listMinD, listMaxD]
  exact ⟨by simp, by decide⟩

theorem sameDay_uniq :
    uniq (sameDayTable.map (·.description)) = ["Spotify Family"] := by decide

theorem sameDay_detect : detect_recurring_payments sameDayTable 3 = [sameDayRec] := by
  rw [detect_recurring_payments, sameDay_expense_filter, sameDay_uniq]
  simp [List.filterMap, sameDay_detectRow, isort, insertLe]

theorem sameDay_totals : calculate_recurring_totals [sameDayRec] = none := by
  simp [calculate_recurring_totals, collectCosts, monthlyCost, pyDiv, sameDayRec]

theorem gym_expense_filter :
    gymTable.filter (fun t => decide (ttypeOf t = "Expense")) = gymTable := by
  norm_num [gymTable, ttypeOf, List.filter]

theorem gym_detectRow : detectRow 3 gymTable "Gym Club" = some gymRec := by
  norm_num [detectRow, gymTable, gymRec, isort, insertLe, dateLe, absAmountOf, qmean,
    popVar, variance_sq, consecutiveGaps, determine_frequency, pyInt, listMinD, listMaxD]
  exact ⟨by simp, by decide⟩

theorem gym_uniq : uniq (gymTable.map (·.description)) = ["Gym Club"] := by decide

theorem gym_detect : detect_recurring_payments gymTable 3 = [gymRec] := by
  rw [detect_recurring_payments, gym_expense_filter, gym_uniq]
  simp [List.filterMap, gym_detectRow, isort, insertLe]

/-! ### C1 - zero-denominator policy -/

/-- C1 (counterexample): the claim states that EVERY ratio with a zero
denominator - including the per-entry monthly-cost conversion of
`calculate_recurring_totals` - evaluates to 0 rather than raising, and in
particular that `calculate_recurring_totals` returns a (finite, guarded)
result on any table `detect_recurring_payments` produces.  On the table of
three same-day occurrences, detection emits an entry with
`avg_interval_days = 0` and the free-form frequency label, and the
monthly-cost conversion for that entry divides by the zero interval with no
guard: it does not evaluate to 0 (the embedding has no value for it; the
float implementation produces an infinite value, not 0). -/
theorem c1_counterexample :
    (detect_recurring_payments sameDayTable 3).map (fun r => r.avg_interval_days) = [0]
    ∧ calculate_recurring_totals (detect_recurring_payments sameDayTable 3) = none := by
  rw [sameDay_detect]
  exact ⟨by simp [sameDayRec], sameDay_totals⟩

/-- C1 (amended): the three ratios the source guards do evaluate to 0 on a
zero denominator - the budget in `percent_used`, the mean amount in the
coefficient-of-variation test, and the total income in the savings rate -
but the per-entry monthly-cost conversion in `calculate_recurring_totals`
has no zero-denominator guard, and a recurring table produced by
`detect_recurring_payments` (three same-day occurrences of one description)
reaches that unguarded division with `avg_interval_days = 0`, where no
0 result is produced. -/
theorem c1_division_guards :
    (∀ spent budget : ℚ, budget = 0 → percent_used spent budget = 0)
    ∧ (∀ amounts : List ℚ, qmean amounts = 0 → variance_sq amounts = 0)
    ∧ (∀ df : List Txn, total_income_of df = 0 →
        (calculate_summary_stats df).savings_rate = 0)
    ∧ (∃ r, detect_recurring_payments sameDayTable 3 = [r] ∧ r.avg_interval_days = 0
        ∧ monthlyCost r = none) := by
  refine ⟨?_, ?_, ?_, ?_⟩
  · intro spent budget h
    simp [percent_used, h]
  · intro amounts h
    simp [variance_sq, h]
  · intro df h
    simp [calculate_summary_stats, h]
  · refine ⟨sameDayRec, sameDay_detect, rfl, ?_⟩
    simp [monthlyCost, pyDiv, sameDayRec]

/-- C1 witness: the guarded ratios at concrete inputs. -/
theorem c1_witness :
    percent_used 5 0 = 0 ∧ variance_sq [] = 0
    ∧ (calculate_summary_stats []).savings_rate = 0 :=
  ⟨c1_division_guards.1 5 0 rfl,
   c1_division_guards.2.1 [] (by simp [qmean]),
   c1_division_guards.2.2.1 [] (by simp [total_income_of])⟩

/-! ### C4 - frequency classification -/

/-- C4 (counterexample): the claim says the free-form label uses the mean
interval ROUNDED to the nearest integer.  On `gymTable` the mean interval is
43/4 = 10.75, whose nearest integer is 11, yet the emitted label is
"Every 10 days": Python `int()` truncates. -/
theorem c4_counterexample :
    (detect_recurring_payments gymTable 3).map (fun r => r.frequency) = ["Every 10 days"]
    ∧ (detect_recurring_payments gymTable 3).map (fun r => r.avg_interval_days) = [43 / 4]
    ∧ round ((43 : ℚ) / 4) = 11 ∧ "Every 10 days" ≠ "Every 11 days" := by
  rw [gym_detect]
  refine ⟨by simp [gymRec], by simp [gymRec], ?_, by decide⟩
  norm_num [round_eq]

/-- Every record `detectRow` emits carries the frequency label computed by
`determine_frequency` from its own mean interval. -/
theorem detectRow_frequency (n : Nat) (e : List Txn) (d : String) (r : RecRow)
    (hrow : detectRow n e d = some r) :
    r.frequency = determine_frequency r.avg_interval_days := by
  simp only [detectRow] at hrow
  split at hrow
  · exact absurd hrow (by simp)
  · split at hrow
    · exact absurd hrow (by simp)
    · split at hrow
      · exact absurd hrow (by simp)
      · rcases Option.some_inj.mp hrow with rfl
        rfl

/-- C4 (amended): every emitted record's label is `determine_frequency` of
its mean consecutive-day gap, and `determine_frequency` classifies by the
inclusive buckets 6-8 Weekly, 25-35 Monthly, 85-95 Quarterly, 355-375
Yearly; outside every bucket the label is "Every N days" where N is the
mean interval TRUNCATED toward zero (Python `int()`), not rounded - so a
mean interval of 10.75 days yields "Every 10 days". -/
theorem c4_frequency_buckets :
    (∀ (df : List Txn) (n : Nat) (r : RecRow), r ∈ detect_recurring_payments df n →
      r.frequency = determine_frequency r.avg_interval_days)
    ∧ (∀ q : ℚ, 0 ≤ q →
        ((6 ≤ q ∧ q ≤ 8) → determine_frequency q = "Weekly")
        ∧ ((25 ≤ q ∧ q ≤ 35) → determine_frequency q = "Monthly")
        ∧ ((85 ≤ q ∧ q ≤ 95) → determine_frequency q = "Quarterly")
        ∧ ((355 ≤ q ∧ q ≤ 375) → determine_frequency q = "Yearly")
        ∧ (¬(6 ≤ q ∧ q ≤ 8) → ¬(25 ≤ q ∧ q ≤ 35) → ¬(85 ≤ q ∧ q ≤ 95) →
            ¬(355 ≤ q ∧ q ≤ 375) →
            determine_frequency q = "Every " ++ toString ⌊q⌋ ++ " days")) := by
  constructor
  · intro df n r hr
    rw [detect_recurring_payments] at hr
    rcases List.mem_filterMap.mp ((mem_isort _ _ _).mp hr) with ⟨d, _, hrow⟩
    exact detectRow_frequency _ _ _ _ hrow
  · intro q hq
    refine ⟨?_, ?_, ?_, ?_, ?_⟩
    · intro h
      have h25 : ¬(25 ≤ q ∧ q ≤ 35) := by rintro ⟨h1, _⟩; linarith [h.2]
      have h85 : ¬(85 ≤ q ∧ q ≤ 95) := by rintro ⟨h1, _⟩; linarith [h.2]
      have h355 : ¬(355 ≤ q ∧ q ≤ 375) := by rintro ⟨h1, _⟩; linarith [h.2]
      simp [determine_frequency, h, h25, h85, h355]
    · intro h
      simp [determine_frequency, h]
    · intro h
      have h25 : ¬(25 ≤ q ∧ q ≤ 35) := by rintro ⟨_, h2⟩; linarith [h.1]
      simp [determine_frequency, h, h25]
    · intro h
      have h25 : ¬(25 ≤ q ∧ q ≤ 35) := by rintro ⟨_, h2⟩; linarith [h.1]
      have h85 : ¬(85 ≤ q ∧ q ≤ 95) := by rintro ⟨_, h2⟩; linarith [h.1]
      simp [determine_frequency, h, h25, h85]
    · intro h6 h25 h85 h355
      simp [determine_frequency, h6, h25, h85, h355, pyInt, hq]

/-- C4 witness: the bucket boundaries and the truncated free-form label at
concrete mean intervals. -/
theorem c4_witness :
    determine_frequency 30 = "Monthly" ∧ determine_frequency (43 / 4) = "Every 10 days" := by
  constructor
  · exact ((c4_frequency_buckets.2 30 (by norm_num)).2.1) (by norm_num)
  · have h := (c4_frequency_buckets.2 (43 / 4) (by norm_num)).2.2.2.2
      (by norm_num) (by norm_num) (by norm_num) (by norm_num)
    rw [h]
    norm_num
    decide

/-! ### C2 - row filtering at ingestion -/

/-- A raw row whose date and amount parse and whose description cell holds
the empty string (present, not missing). -/
def emptyDescRaw : RawRow := { date := some 0, description := some "", amount := some (-5) }

/-- C2 (counterexample): the claim says a row with a valid date and amount
but an empty-string description does not appear in the canonical table.
`dropna` removes only missing values; the empty-string description survives
and the row appears in the output. -/
theorem c2_counterexample :
    process_transactions [emptyDescRaw]
      = [{ date := some 0, description := some "", amount := some (-5),
           ttype := "Expense", abs_amount := some 5 }] := by
  norm_num [process_transactions, emptyDescRaw, procOf, isort, insertLe, List.filter]

/-- C2 (amended): every row whose date or amount fails to parse or whose
description cell is MISSING is excluded from the canonical table, and every
remaining row has non-null date, amount and description; but a present
empty-string description is not a missing value, so such a row is kept
(every fully-present raw row reappears, processed, in the output). -/
theorem c2_row_filtering (df : List RawRow) :
    (∀ r ∈ process_transactions df,
      r.date.isSome = true ∧ r.amount.isSome = true ∧ r.description.isSome = true)
    ∧ (∀ raw ∈ df, raw.date.isSome = true → raw.amount.isSome = true →
        raw.description.isSome = true → procOf raw ∈ process_transactions df) := by
  constructor
  · intro r hr
    have h := List.mem_filter.mp hr
    rcases Bool.and_eq_true_iff.mp h.2 with ⟨h1, h3⟩
    rcases Bool.and_eq_true_iff.mp h1 with ⟨hd, ha⟩
    exact ⟨hd, ha, h3⟩
  · intro raw hraw hd ha hdesc
    refine List.mem_filter.mpr ⟨?_, ?_⟩
    · exact (mem_isort _ _ _).mpr (List.mem_map_of_mem procOf hraw)
    · show (((procOf raw).date.isSome && (procOf raw).amount.isSome) &&
        (procOf raw).description.isSome) = true
      simp only [procOf, Option.isSome_map]
      simp [hd, ha, hdesc]

/-- C2 witness: the empty-string-description row is retained. -/
theorem c2_witness : procOf emptyDescRaw ∈ process_transactions [emptyDescRaw] :=
  (c2_row_filtering [emptyDescRaw]).2 emptyDescRaw (by simp) rfl rfl rfl

/-! ### C3 - recommendation records in the insight-response parser -/

/-- C3 (counterexample): the claim says a record is started only by a
`Priority:` line, so a `Category:` line before any `Priority:` line
produces no record.  In the source, `Category:` assigns a key on the (still
priority-less) `current_rec` dict, which the end-of-input flush then emits:
one record with no priority field. -/
theorem c3_counterexample :
    (parse_insights_response "RECOMMENDATIONS:\nCategory: Food").recommendations
      = [{ priority := none, category := some "Food", action := none, impact := none }] := by
  decide

/-- The loop body can only append the truthy `current_rec`. -/
theorem parseLine_recs_nonempty (st : PState) (line : List Char)
    (h : ∀ r ∈ st.recs, recNonempty r = true) :
    ∀ r ∈ (parseLine st line).recs, recNonempty r = true := by
  intro r hr
  simp only [parseLine] at hr
  repeat' split at hr
  all_goals try exact h r hr
  all_goals rcases List.mem_append.mp hr with hr2 | hr2
  all_goals try exact h r hr2
  all_goals rcases List.mem_singleton.mp hr2 with rfl
  all_goals assumption

theorem foldl_parseLine_nonempty (lines : List (List Char)) (st : PState)
    (h : ∀ r ∈ st.recs, recNonempty r = true) :
    ∀ r ∈ (lines.foldl parseLine st).recs, recNonempty r = true := by
  induction lines generalizing st with
  | nil => exact h
  | cons l ls ih => exact ih _ (parseLine_recs_nonempty st l h)

/-- C3 (amended): within the recommendations section a record is started by
the FIRST of the four field lines seen - `Category:`, `Action:` or
`Impact:` lines before any `Priority:` line do start (and populate) a
priority-less record; a `Priority:` line flushes the in-progress record,
whatever started it, and a trailing in-progress record is flushed at end of
input.  Consequently every emitted record has at least one populated field
(the parser never emits an all-empty record), but it need not contain a
priority. -/
theorem c3_recommendation_records :
    (∀ text : String, ∀ r ∈ (parse_insights_response text).recommendations,
      recNonempty r = true)
    ∧ (parse_insights_response
        "RECOMMENDATIONS:\nCategory: Food\nPriority: HIGH\nAction: Cut").recommendations
      = [{ priority := none, category := some "Food", action := none, impact := none },
         { priority := some "HIGH", category := none, action := some "Cut", impact := none }] := by
  constructor
  · intro text r hr
    simp only [parse_insights_response] at hr
    rcases List.mem_append.mp hr with hr2 | hr2
    · exact foldl_parseLine_nonempty _ _ (by intro r hr; exact absurd hr (by simp)) r hr2
    · split at hr2
      · rcases List.mem_singleton.mp hr2 with rfl
        assumption
      · exact absurd hr2 (by simp)
  · decide

/-- C3 witness: the priority-less record emitted for a lone `Category:` line
is non-empty. -/
theorem c3_witness :
    recNonempty { priority := none, category := some "Food", action := none,
                  impact := none } = true :=
  c3_recommendation_records.1 "RECOMMENDATIONS:\nCategory: Food" _ (by decide)

/-! ### C6 - degradable AI categorisation -/

/-- C6: the AI batch categorisation returns exactly one label per
transaction; on any service error the whole batch is rule-based; on a
successful response the transactions beyond the returned labels get their
rule-based category.  The embedding of the call site is a total function of
the service outcome, which is the source's `try`/`except Exception`
swallowing every failure. -/
theorem c6_ai_fallback (df : List Txn) (service : Except String String) :
    (categorize_with_ai df service).length = df.length
    ∧ (∀ e, service = .error e → categorize_with_ai df service = rule_based df)
    ∧ (∀ text, service = .ok text →
        ∀ i, (labelsOfResponse text).length ≤ i → i < df.length →
        (categorize_with_ai df service)[i]?
          = (df[i]?).map (fun t => categorize_transaction_simple t.description)) := by
  cases service with
  | error e =>
    refine ⟨by simp [categorize_with_ai, rule_based], fun _ _ => rfl, ?_⟩
    intro text htext
    exact absurd htext (by simp)
  | ok text =>
    by_cases hk : (labelsOfResponse text).length < df.length
    · refine ⟨?_, fun e he => absurd he (by simp), ?_⟩
      · simp only [categorize_with_ai, if_pos hk, List.length_take, List.length_append,
          List.length_map, List.length_drop]
        omega
      · intro t ht i hki hi
        rcases Except.ok.inj ht with rfl
        simp only [categorize_with_ai, if_pos hk]
        rw [List.getElem?_take, if_pos hi]
        rw [List.getElem?_append_right hki, List.getElem?_map, List.getElem?_drop,
          show (labelsOfResponse text).length + (i - (labelsOfResponse text).length) = i
            by omega]
    · refine ⟨?_, fun e he => absurd he (by simp), ?_⟩
      · simp only [categorize_with_ai, if_neg hk, List.length_take]
        omega
      · intro t ht i hki hi
        rcases Except.ok.inj ht with rfl
        omega

/-- Two-transaction table for exercising the label shortfall. -/
def shortfallTable : List Txn :=
  [⟨0, "ICA Supermarket", -450, none⟩, ⟨1, "Mystery Purchase", -5, none⟩]

/-- C6 witness: one returned label for two transactions - the second
transaction gets its rule-based category. -/
theorem c6_witness :
    (categorize_with_ai shortfallTable (Except.ok "Food & Groceries"))[1]?
      = (shortfallTable[1]?).map (fun t => categorize_transaction_simple t.description) :=
  (c6_ai_fallback shortfallTable (Except.ok "Food & Groceries")).2.2
    "Food & Groceries" rfl 1 (by decide) (by decide)

/-! ### C7 - budget monotonicity -/

/-- C7: for a fixed budget, a category whose attributed spend increases
never sees `percent_used` decrease, and a status of Over Budget never flips
back to Within Budget. -/
theorem c7_budget_monotonic (df1 df2 : List Txn) (c : String) (b : ℚ)
    (h : actual_spending df1 c ≤ actual_spending df2 c) :
    (budget_row df1 c b).PercentUsed ≤ (budget_row df2 c b).PercentUsed
    ∧ ((budget_row df1 c b).Status = "Over Budget" →
        (budget_row df2 c b).Status = "Over Budget") := by
  constructor
  · simp only [budget_row, percent_used]
    by_cases hb : 0 < b
    · rw [if_pos hb, if_pos hb]
      exact mul_le_mul_of_nonneg_right ((div_le_div_iff_of_pos_right hb).mpr h) (by norm_num)
    · rw [if_neg hb, if_neg hb]
  · simp only [budget_row, budget_status_of]
    by_cases h1 : b < actual_spending df1 c
    · rw [if_pos h1, if_pos (lt_of_lt_of_le h1 h)]
      exact fun _ => rfl
    · rw [if_neg h1]
      intro hst
      exact absurd hst (by decide)

/-- One-expense table used by the C7 witness. -/
def oneSpendTable : List Txn := [⟨0, "Spend", -5, some "A"⟩]

/-- C7 witness: spend growing from 0 to 5 against budget 4. -/
theorem c7_witness :
    (budget_row [] "A" 4).PercentUsed ≤ (budget_row oneSpendTable "A" 4).PercentUsed := by
  have h : actual_spending [] "A" ≤ actual_spending oneSpendTable "A" := by
    norm_num [actual_spending, oneSpendTable, ttypeOf, absAmountOf, List.filter]
  exact (c7_budget_monotonic [] oneSpendTable "A" 4 h).1

/-! ### C9 - the bulk categoriser mutates the caller's table -/

/-- A table the categoriser has not yet touched (`category` column absent). -/
def mysteryTable : List Txn := [⟨0, "Mystery Purchase", -5, none⟩]

/-- C9 (counterexample): the claim says rule-based
`categorize_transactions_bulk` leaves the caller's table unchanged and
returns a new table.  The source assigns the category column in place
(`df['category'] = ...`) and returns the same frame: after the call the
caller's table differs from what was passed in. -/
theorem c9_counterexample :
    (categorize_transactions_bulk mysteryTable).1 ≠ mysteryTable := by
  have h : categorize_transaction_simple "Mystery Purchase" = "Other" := by decide
  intro hEq
  simp [categorize_transactions_bulk, mysteryTable, h] at hEq

/-- C9 (amended): rule-based `categorize_transactions_bulk` assigns the
category column in place on the caller's table and returns that same
updated table (not a new one): the caller's frame after the call and the
returned frame coincide, and row `i` of both is row `i` of the input with
only `category` set to its rule-based value.  The operation is still a
deterministic function of its input. -/
theorem c9_bulk_in_place (df : List Txn) :
    (categorize_transactions_bulk df).1 = (categorize_transactions_bulk df).2
    ∧ (categorize_transactions_bulk df).2.length = df.length
    ∧ (∀ i : Nat, ((categorize_transactions_bulk df).2)[i]?
        = (df[i]?).map (fun t =>
            { t with category := some (categorize_transaction_simple t.description) })) := by
  refine ⟨rfl, by simp [categorize_transactions_bulk], ?_⟩
  intro i
  simp [categorize_transactions_bulk, List.getElem?_map]

/-! ### C10 - a zero-budget overspent category sorts last -/

/-- C10: a budget entry of 0 with positive spend is reported Over Budget
with `percent_used` 0, and in the output (sorted descending by percent
used) any row with percent 0 comes after every row with positive percent. -/
theorem c10_zero_budget (df : List Txn) (budgets : List (String × ℚ)) (c : String)
    (hmem : (c, (0 : ℚ)) ∈ budgets) (hspent : 0 < actual_spending df c) :
    (∃ r ∈ get_budget_status df budgets,
      r.Category = c ∧ r.Status = "Over Budget" ∧ r.PercentUsed = 0)
    ∧ (∀ i j (hi : i < (get_budget_status df budgets).length)
        (hj : j < (get_budget_status df budgets).length),
        ((get_budget_status df budgets).get ⟨i, hi⟩).PercentUsed = 0 →
        0 < ((get_budget_status df budgets).get ⟨j, hj⟩).PercentUsed → j < i) := by
  constructor
  · refine ⟨budget_row df c 0, ?_, rfl, ?_, ?_⟩
    · exact (mem_isort _ _ _).mpr
        (List.mem_map.mpr ⟨(c, 0), hmem, rfl⟩)
    · simp only [budget_row, budget_status_of]
      rw [if_pos hspent]
    · simp [budget_row, percent_used]
  · have hp := pairwise_isort (fun r s => decide (s.PercentUsed ≤ r.PercentUsed))
      (fun a b => by
        rcases le_total b.PercentUsed a.PercentUsed with h | h
        · exact Or.inl (decide_eq_true h)
        · exact Or.inr (decide_eq_true h))
      (fun a b c hab hbc => decide_eq_true
        (le_trans (of_decide_eq_true hbc) (of_decide_eq_true hab)))
      (budgets.map (fun p => budget_row df p.1 p.2))
    intro i j hi hj hzero hpos
    simp only [get_budget_status] at hzero hpos
    rcases lt_trichotomy j i with h | h | h
    · exact h
    · subst h
      rw [hzero] at hpos
      exact absurd hpos (lt_irrefl 0)
    · have := List.pairwise_iff_get.mp hp ⟨i, hi⟩ ⟨j, hj⟩ h
      have hle := of_decide_eq_true this
      rw [hzero] at hle
      exact absurd (lt_of_lt_of_le hpos hle) (lt_irrefl 0)

/-- Tables for the C10 witness: category A has budget 0 and spend 50. -/
def zeroBudgetTable : List Txn :=
  [⟨0, "a", -50, some "A"⟩, ⟨0, "b", -50, some "B"⟩]

def zeroBudgetConfig : List (String × ℚ) := [("A", 0), ("B", 100)]

/-- C10 witness: the zero-budget overspent category is reported Over Budget
with percent 0. -/
theorem c10_witness :
    ∃ r ∈ get_budget_status zeroBudgetTable zeroBudgetConfig,
      r.Category = "A" ∧ r.Status = "Over Budget" ∧ r.PercentUsed = 0 := by
  have h1 : ("A", (0 : ℚ)) ∈ zeroBudgetConfig := by norm_num [zeroBudgetConfig]
  have h2 : 0 < actual_spending zeroBudgetTable "A" := by
    have hb : (decide (("B" : String) = "A")) = false := by decide
    norm_num [actual_spending, zeroBudgetTable, ttypeOf, absAmountOf, List.filter, hb]
  exact (c10_zero_budget zeroBudgetTable zeroBudgetConfig "A" h1 h2).1

/-! ### C8 - category summary scope and ordering -/

/-- A table holding a single income-type transaction. -/
def salaryTable : List Txn := [⟨0, "Salary Deposit", 45000, some "Income"⟩]

/-- The summary row `get_category_summary` produces for `salaryTable`. -/
def salaryRow : CatSummary :=
  { category := "Income", Total := 45000, Average := 45000, Count := 1 }

theorem salary_summary_eval : get_category_summary salaryTable = [salaryRow] := by
  norm_num [get_category_summary, salaryTable, salaryRow, uniq, isort, insertLe, strLeB,
    charListLe, qmean, absAmountOf, npRound2, roundHalfEven, List.filter, List.filterMap]

/-- C8 (counterexample): the claim says income-type rows contribute nothing
to any category's sum, mean or count.  On a table holding one income-type
row and no expense rows the summary is not empty: the income row fully
populates it, because `get_category_summary` applies no type filter to the
frame it receives. -/
theorem c8_counterexample :
    salaryTable.filter (fun t => decide (ttypeOf t = "Expense")) = []
    ∧ get_category_summary salaryTable = [salaryRow] := by
  refine ⟨?_, salary_summary_eval⟩
  have hie : (decide (("Income" : String) = "Expense")) = false := by decide
  norm_num [salaryTable, ttypeOf, List.filter, hie]

/-- C8 (amended): `get_category_summary` aggregates EVERY row of the table
it is given - income-type rows included; the expense-only restriction is
performed by its caller (app.py line 300 passes a pre-filtered frame).  For
each emitted row, the sum and count are taken over all transactions of the
table carrying that category, and the rows are sorted descending by sum. -/
theorem c8_category_summary (df : List Txn) :
    (get_category_summary df).Pairwise (fun r s => s.Total ≤ r.Total)
    ∧ (∀ s ∈ get_category_summary df,
        s.Total = npRound2
          (((df.filter (fun t => decide (t.category = some s.category))).map absAmountOf).sum)
        ∧ s.Count = (df.filter (fun t => decide (t.category = some s.category))).length) := by
  constructor
  · have hp := pairwise_isort (fun r s : CatSummary => decide (s.Total ≤ r.Total))
      (fun a b => by
        rcases le_total b.Total a.Total with h | h
        · exact Or.inl (decide_eq_true h)
        · exact Or.inr (decide_eq_true h))
      (fun a b c hab hbc => decide_eq_true
        (le_trans (of_decide_eq_true hbc) (of_decide_eq_true hab)))
      ((isort strLeB (uniq (df.filterMap (·.category)))).map (fun k =>
        let g := df.filter (fun t => decide (t.category = some k))
        let amts := g.map absAmountOf
        { category := k, Total := npRound2 amts.sum, Average := npRound2 (qmean amts),
          Count := g.length }))
    exact hp.imp (fun h => of_decide_eq_true h)
  · intro s hs
    rw [get_category_summary] at hs
    rcases List.mem_map.mp ((mem_isort _ _ _).mp hs) with ⟨k, _, rfl⟩
    exact ⟨rfl, rfl⟩

/-- C8 witness: the reported total for the income category of `salaryTable`
is the rounded sum over all rows carrying that category. -/
theorem c8_witness :
    salaryRow.Total = npRound2 (((salaryTable.filter
      (fun t => decide (t.category = some salaryRow.category))).map absAmountOf).sum) := by
  have hm : salaryRow ∈ get_category_summary salaryTable := by
    rw [salary_summary_eval]
    exact List.mem_singleton.mpr rfl
  exact ((c8_category_summary salaryTable).2 _ hm).1

/-! ### C5 - the minimum-occurrence boundary for recurring detection -/

/-- One transaction of an exact-spacing series. -/
def mkTxn (d : String) (a : ℚ) (c : String) (day : Int) : Txn :=
  { date := day, description := d, amount := a, category := some c }

def mkSeries (d : String) (a : ℚ) (c : String) : Int → Nat → List Txn
  | _, 0 => []
  | start, n + 1 => mkTxn d a c start :: mkSeries d a c (start + 30) n

theorem length_mkSeries (d : String) (a : ℚ) (c : String) :
    ∀ (n : Nat) (start : Int), (mkSeries d a c start n).length = n := by
  intro n
  induction n with
  | zero => intro start; rfl
  | succ m ih => intro start; simp [mkSeries, ih]

theorem mem_mkSeries (d : String) (a : ℚ) (c : String) :
    ∀ (n : Nat) (start : Int) (t : Txn), t ∈ mkSeries d a c start n →
      t.description = d ∧ t.amount = a ∧ t.category = some c ∧ start ≤ t.date := by
  intro n
  induction n with
  | zero => intro start t ht; exact absurd ht (by simp [mkSeries])
  | succ m ih =>
    intro start t ht
    rcases List.mem_cons.mp ht with rfl | ht
    · exact ⟨rfl, rfl, rfl, le_refl _⟩
    · rcases ih (start + 30) t ht with ⟨h1, h2, h3, h4⟩
      exact ⟨h1, h2, h3, by omega⟩

theorem map_abs_mkSeries (d : String) (a : ℚ) (c : String) :
    ∀ (n : Nat) (start : Int),
      (mkSeries d a c start n).map absAmountOf = List.replicate n |a| := by
  intro n
  induction n with
  | zero => intro start; rfl
  | succ m ih =>
    intro start
    simp only [mkSeries, List.map_cons, ih, List.replicate_succ]
    rfl

theorem map_desc_mkSeries (d : String) (a : ℚ) (c : String) :
    ∀ (n : Nat) (start : Int),
      (mkSeries d a c start n).map (·.description) = List.replicate n d := by
  intro n
  induction n with
  | zero => intro start; rfl
  | succ m ih =>
    intro start
    simp only [mkSeries, List.map_cons, ih, List.replicate_succ]
    rfl

theorem filter_expense_mkSeries (d : String) (a : ℚ) (c : String) (ha : a ≤ 0) :
    ∀ (n : Nat) (start : Int),
      (mkSeries d a c start n).filter (fun t => decide (ttypeOf t = "Expense"))
        = mkSeries d a c start n := by
  intro n start
  refine List.filter_eq_self.mpr ?_
  intro t ht
  rcases mem_mkSeries d a c n start t ht with ⟨_, h2, _, _⟩
  have : ttypeOf t = "Expense" := by
    rw [ttypeOf, if_neg (by rw [h2]; exact not_lt.mpr ha)]
  exact decide_eq_true this

theorem filter_desc_mkSeries (d : String) (a : ℚ) (c : String) :
    ∀ (n : Nat) (start : Int),
      (mkSeries d a c start n).filter (fun t => decide (t.description = d))
        = mkSeries d a c start n := by
  intro n start
  refine List.filter_eq_self.mpr ?_
  intro t ht
  exact decide_eq_true (mem_mkSeries d a c n start t ht).1

theorem pairwise_date_mkSeries (d : String) (a : ℚ) (c : String) :
    ∀ (n : Nat) (start : Int),
      (mkSeries d a c start n).Pairwise (fun s t => dateLe s t = true) := by
  intro n
  induction n with
  | zero => intro start; simp [mkSeries]
  | succ m ih =>
    intro start
    refine List.pairwise_cons.mpr ⟨?_, ih (start + 30)⟩
    intro t ht
    rcases mem_mkSeries d a c m (start + 30) t ht with ⟨_, _, _, h4⟩
    exact decide_eq_true (show (mkTxn d a c start).date ≤ t.date by
      simp only [mkTxn]
      omega)

theorem isort_mkSeries (d : String) (a : ℚ) (c : String) (n : Nat) (start : Int) :
    isort dateLe (mkSeries d a c start n) = mkSeries d a c start n :=
  isort_eq_self _ _ (pairwise_date_mkSeries d a c n start)

theorem foldl_uniq_absorb {α : Type} [DecidableEq α] :
    ∀ (l : List α) (acc : List α), (∀ x ∈ l, x ∈ acc) →
      l.foldl (fun acc x => if x ∈ acc then acc else acc ++ [x]) acc = acc := by
  intro l
  induction l with
  | nil => intro acc _; rfl
  | cons x xs ih =>
    intro acc h
    rw [List.foldl_cons, if_pos (h x (by simp))]
    exact ih acc (fun y hy => h y (by simp [hy]))

theorem uniq_const {α : Type} [DecidableEq α] (d : α) (l : List α) (hne : l ≠ [])
    (h : ∀ x ∈ l, x = d) : uniq l = [d] := by
  cases l with
  | nil => exact absurd rfl hne
  | cons x xs =>
    have hx : x = d := h x (by simp)
    rw [uniq, List.foldl_cons, if_neg (by simp), List.nil_append]
    rw [foldl_uniq_absorb xs [x] (fun y hy => by
      rw [List.mem_singleton, h y (by simp [hy]), hx])]
    rw [hx]

theorem gaps_mkSeries (d : String) (a : ℚ) (c : String) :
    ∀ (m : Nat) (start : Int),
      consecutiveGaps ((mkSeries d a c start (m + 1)).map (·.date))
        = List.replicate m 30 := by
  intro m
  induction m with
  | zero => intro start; rfl
  | succ k ih =>
    intro start
    show consecutiveGaps ((mkTxn d a c start :: mkSeries d a c (start + 30) (k + 1)).map
      (·.date)) = List.replicate (k + 1) 30
    rw [show mkSeries d a c (start + 30) (k + 1)
        = mkTxn d a c (start + 30) :: mkSeries d a c (start + 30 + 30) k from rfl]
    simp only [List.map_cons]
    rw [consecutiveGaps, show (mkTxn d a c (start + 30)).date - (mkTxn d a c start).date
      = 30 from by simp [mkTxn]]
    have := ih (start + 30)
    rw [show mkSeries d a c (start + 30) (k + 1)
        = mkTxn d a c (start + 30) :: mkSeries d a c (start + 30 + 30) k from rfl] at this
    simp only [List.map_cons] at this
    rw [this, List.replicate_succ]

theorem qmean_replicate (n : Nat) (x : ℚ) (hn : n ≠ 0) :
    qmean (List.replicate n x) = x := by
  rw [qmean, List.sum_replicate, List.length_replicate, nsmul_eq_mul, mul_comm,
    mul_div_assoc, div_self (by exact_mod_cast hn), mul_one]

theorem popVar_replicate (n : Nat) (x : ℚ) (hn : n ≠ 0) :
    popVar (List.replicate n x) = 0 := by
  rw [popVar, qmean_replicate n x hn, List.map_replicate]
  simp only [sub_self, ne_eq, OfNat.ofNat_ne_zero, not_false_eq_true, zero_pow]
  rw [qmean_replicate n 0 hn]

theorem variance_sq_replicate (n : Nat) (x : ℚ) (hn : n ≠ 0) :
    variance_sq (List.replicate n x) = 0 := by
  rw [variance_sq]
  by_cases hx : 0 < qmean (List.replicate n x)
  · rw [if_pos hx, popVar_replicate n x hn, zero_div]
  · rw [if_neg hx]

theorem detectRow_mkSeries (n : Nat) (d : String) (a : ℚ) (c : String) (start : Int)
    (hn : 2 ≤ n) :
    ∃ r, detectRow n (mkSeries d a c start n) d = some r
      ∧ r.description = d ∧ r.frequency = "Monthly" ∧ r.occurrences = n := by
  obtain ⟨m, rfl⟩ : ∃ m, n = m + 2 := ⟨n - 2, by omega⟩
  have hsort : isort dateLe ((mkSeries d a c start (m + 2)).filter
      (fun t => decide (t.description = d))) = mkSeries d a c start (m + 2) := by
    rw [filter_desc_mkSeries, isort_mkSeries]
  have hlen : (mkSeries d a c start (m + 2)).length = m + 2 := length_mkSeries d a c _ _
  have habs : (mkSeries d a c start (m + 2)).map absAmountOf
      = List.replicate (m + 2) |a| := map_abs_mkSeries d a c _ _
  have hvar : variance_sq ((mkSeries d a c start (m + 2)).map absAmountOf) = 0 := by
    rw [habs]; exact variance_sq_replicate (m + 2) |a| (by omega)
  have hgaps : consecutiveGaps ((mkSeries d a c start (m + 2)).map (·.date))
      = List.replicate (m + 1) 30 := gaps_mkSeries d a c (m + 1) start
  have havg : ((List.replicate (m + 1) (30 : Int)).sum : ℚ)
      / ((List.replicate (m + 1) (30 : Int)).length : ℚ) = 30 := by
    rw [List.sum_replicate, List.length_replicate, nsmul_eq_mul]
    push_cast
    rw [mul_comm, mul_div_assoc, div_self (by positivity), mul_one]
  simp only [detectRow]
  rw [hsort, hlen, if_neg (by omega), hvar, if_neg (by norm_num), hgaps,
    if_neg (by simp), havg,
    show mkSeries d a c start (m + 2)
      = mkTxn d a c start :: mkSeries d a c (start + 30) (m + 1) from rfl]
  refine ⟨_, rfl, rfl, ?_, rfl⟩
  norm_num [determine_frequency]

/-- C5: for every `min_occurrences ≥ 2`, a table of expense transactions
sharing one description, all with the same amount (zero variance) and dates
exactly 30 days apart, with exactly `min_occurrences` occurrences, yields
exactly one recurring record for that description, classified Monthly with
occurrence count `min_occurrences`; the same series with one occurrence
fewer yields no record at all. -/
theorem c5_detection_boundary (n : Nat) (d : String) (a : ℚ) (c : String) (start : Int)
    (hn : 2 ≤ n) (ha : a ≤ 0) :
    (∃ r, detect_recurring_payments (mkSeries d a c start n) n = [r]
       ∧ r.description = d ∧ r.frequency = "Monthly" ∧ r.occurrences = n)
    ∧ detect_recurring_payments (mkSeries d a c start (n - 1)) n = [] := by
  constructor
  · rw [detect_recurring_payments, filter_expense_mkSeries d a c ha n start]
    have huniq : uniq ((mkSeries d a c start n).map (·.description)) = [d] := by
      rw [map_desc_mkSeries]
      exact uniq_const d _ (by simp; omega) (fun x hx => List.eq_of_mem_replicate hx)
    rw [huniq]
    obtain ⟨r, hr, h1, h2, h3⟩ := detectRow_mkSeries n d a c start hn
    simp only [List.filterMap_cons, List.filterMap_nil, hr]
    exact ⟨r, by simp [isort, insertLe], h1, h2, h3⟩
  · rw [detect_recurring_payments, filter_expense_mkSeries d a c ha (n - 1) start]
    have huniq : uniq ((mkSeries d a c start (n - 1)).map (·.description)) = [d] := by
      rw [map_desc_mkSeries]
      exact uniq_const d _ (by simp; omega) (fun x hx => List.eq_of_mem_replicate hx)
    rw [huniq]
    have hnone : detectRow n (mkSeries d a c start (n - 1)) d = none := by
      simp only [detectRow]
      rw [filter_desc_mkSeries, isort_mkSeries, length_mkSeries, if_pos (by omega)]
    simp only [List.filterMap_cons, List.filterMap_nil, hnone]
    rfl

/-- C5 witness: the boundary at `min_occurrences = 3` for a concrete series. -/
theorem c5_witness :
    (∃ r, detect_recurring_payments (mkSeries "Netflix" (-99) "Entertainment" 0 3) 3 = [r]
       ∧ r.description = "Netflix" ∧ r.frequency = "Monthly" ∧ r.occurrences = 3)
    ∧ detect_recurring_payments (mkSeries "Netflix" (-99) "Entertainment" 0 (3 - 1)) 3 = [] :=
  c5_detection_boundary 3 "Netflix" (-99) "Entertainment" 0 (by norm_num) (by norm_num)
